import Mathlib

/-!
Verification of the real-time chat hub of a Django Channels chat server.

The development shallowly embeds the WebSocket consumer
(`chat/consumers.py`, class `ChatConsumer`) and the model-layer logic it
touches (`chat/models.py`): the hub state (conversations, participants,
messages, read statuses, typing-indicator rows, the boolean
`User.is_online` column, and the set of live joined sessions), the
consumer's handlers (`connect`, `disconnect`, `receive`,
`handle_chat_message`, `handle_typing`, `handle_read_receipt`), the
channel-layer group broadcast with its per-session event handlers, and
the pure model methods `TypingIndicator.is_active` and
`ConversationParticipant.get_unread_count`.
-/

namespace ChatServer

/-- Whitespace characters removed by Python `str.strip()` on the ASCII
range (space, tab, newline, carriage return, vertical tab, form feed). -/
def isPySpace (c : Char) : Bool :=
  c = ' ' || c = '\t' || c = '\n' || c = '\r' || c = '\x0b' || c = '\x0c'

/-- Python `content.strip()`: drop leading and trailing whitespace. -/
def pyStrip (s : String) : String :=
  String.mk (((s.data.dropWhile isPySpace).reverse.dropWhile isPySpace).reverse)

/-- A row of the `messages` table (`chat/models.py`, class `Message`)
restricted to the fields the consumer reads: primary key, conversation
and sender foreign keys, body, `created_at`.  Timestamps are modelled as
natural numbers. -/
structure Msg where
  id : Nat
  conversation : Nat
  sender : Nat
  content : String
  createdAt : Nat
deriving DecidableEq, Repr

/-- A row of `message_read_status` (`MessageReadStatus`): the
(message, user) pair.  `read_at` plays no role in any handler. -/
structure ReadStatus where
  message : Nat
  user : Nat
deriving DecidableEq, Repr

/-- A row of `conversation_participants` (`ConversationParticipant`)
restricted to the fields the claims touch: the (conversation, user)
pair and the nullable `last_read_at`. -/
structure Participant where
  conversation : Nat
  user : Nat
  lastReadAt : Option Nat
deriving DecidableEq, Repr

/-- One live WebSocket session of `ChatConsumer`: its channel name
(`sid`), the authenticated user (`self.user.id`, `self.user.username`,
`self.user.is_authenticated`), and the conversation id taken from the
URL route. -/
structure Session where
  sid : Nat
  userId : Nat
  username : String
  conversationId : Nat
  isAuthenticated : Bool
deriving DecidableEq, Repr

/-- The state the consumer reads and writes: the persistent tables plus
the ephemeral channel-layer group membership (`sessions`, where a
session is a member of the group of its `conversationId`).  `typing`
holds the `typing_indicators` rows as (conversation, user) pairs.
`onlineFlag` holds the ids of users whose `User.is_online` column is
true.  `nextMessageId` models the auto-increment primary key and
`clock` the value `timezone.now()` would stamp next. -/
structure HubState where
  conversations : List Nat
  participants : List Participant
  messages : List Msg
  readStatuses : List ReadStatus
  typing : List (Nat × Nat)
  onlineFlag : List Nat
  sessions : List Session
  nextMessageId : Nat
  clock : Nat
deriving DecidableEq, Repr

/-- Number of live sessions of a user: the derived presence count the
specification's Presence Tracker is about. -/
def liveSessionCount (st : HubState) (userId : Nat) : Nat :=
  (st.sessions.filter (fun s => s.userId == userId)).length

/-- `ChatConsumer.check_participant`: a `ConversationParticipant` row
for (conversation, user) exists. -/
def check_participant (st : HubState) (convId userId : Nat) : Bool :=
  st.participants.any (fun p => p.conversation == convId && p.user == userId)

/-- The message payload produced by `ChatConsumer.serialize_message`.
`MessageSerializer.get_is_read` returns `False` when the serializer
context has no request, which is always the case in the consumer. -/
structure SerializedMessage where
  id : Nat
  conversation : Nat
  senderId : Nat
  content : String
  isRead : Bool
deriving DecidableEq, Repr

/-- `ChatConsumer.serialize_message` on a message row. -/
def serialize_message (m : Msg) : SerializedMessage :=
  { id := m.id, conversation := m.conversation, senderId := m.sender,
    content := m.content, isRead := false }

/-- An event posted to a conversation group via
`channel_layer.group_send`; the `type` field selects which consumer
method handles it (`chat_message_handler`, `typing_indicator_handler`,
`user_status`). -/
inductive GroupEvent where
  | chatMessageEvent (message : SerializedMessage)
  | typingEvent (userId : Nat) (username : String) (isTyping : Bool)
  | userStatusEvent (userId : Nat) (username : String) (status : String)
deriving DecidableEq, Repr

/-- An outbound WebSocket frame written by `self.send`. -/
inductive OutFrame where
  | chatMessage (message : SerializedMessage)
  | typing (userId : Nat) (username : String) (isTyping : Bool)
  | userStatus (userId : Nat) (username : String) (status : String)
  | errorFrame (message : String)
deriving DecidableEq, Repr

/-- What one member session sends to its own socket when a group event
reaches it: `chat_message_handler` always forwards,
`typing_indicator_handler` drops the event when the typing user's id
equals the receiving session's user id, `user_status` always forwards. -/
def handleGroupEvent (s : Session) : GroupEvent → Option OutFrame
  | .chatMessageEvent m => some (.chatMessage m)
  | .typingEvent uid uname t =>
      if uid == s.userId then none else some (.typing uid uname t)
  | .userStatusEvent uid uname status => some (.userStatus uid uname status)

/-- `channel_layer.group_send(chat_<convId>, ev)`: every session joined
to the group of `convId` runs its handler; the result is the list of
(channel, frame) deliveries actually written. -/
def group_send (sessions : List Session) (convId : Nat) (ev : GroupEvent) :
    List (Nat × OutFrame) :=
  sessions.filterMap (fun s =>
    if s.conversationId == convId then
      (handleGroupEvent s ev).map (fun f => (s.sid, f))
    else none)

/-- `ChatConsumer.update_online_status`: write the boolean
`User.is_online` column of the session's user. -/
def update_online_status (st : HubState) (userId : Nat) (isOnline : Bool) :
    HubState :=
  if isOnline then
    if st.onlineFlag.contains userId then st
    else { st with onlineFlag := userId :: st.onlineFlag }
  else { st with onlineFlag := st.onlineFlag.filter (fun u => u != userId) }

/-- `ChatConsumer.add_typing_indicator`:
`TypingIndicator.objects.update_or_create(conversation, user)`. -/
def add_typing_indicator (st : HubState) (s : Session) : HubState :=
  if st.typing.any (fun e => e.1 == s.conversationId && e.2 == s.userId) then st
  else { st with typing := st.typing ++ [(s.conversationId, s.userId)] }

/-- `ChatConsumer.remove_typing_indicator`: delete the
(conversation, user) typing row. -/
def remove_typing_indicator (st : HubState) (s : Session) : HubState :=
  { st with typing :=
      st.typing.filter (fun e => !(e.1 == s.conversationId && e.2 == s.userId)) }

/-- `ChatConsumer.save_message`: fetch the conversation row (failure =
`Conversation.DoesNotExist`, the caught persistence failure), create a
`Message` stamped with the current clock, touch the conversation.
Returns `none` exactly when the consumer's `except` branch returns
`None`. -/
def save_message (st : HubState) (s : Session) (content : String) :
    Option (Msg × HubState) :=
  if st.conversations.contains s.conversationId then
    let m : Msg := { id := st.nextMessageId, conversation := s.conversationId,
                     sender := s.userId, content := content,
                     createdAt := st.clock }
    some (m, { st with messages := st.messages ++ [m],
                       nextMessageId := st.nextMessageId + 1 })
  else none

/-- `ChatConsumer.handle_chat_message`: strip the body, return silently
when empty, persist, and on success broadcast the serialized message to
the conversation group.  On persistence failure (`save_message` is
`None`) nothing further happens. -/
def handle_chat_message (st : HubState) (s : Session) (content : String) :
    HubState × List (Nat × OutFrame) :=
  let trimmed := pyStrip content
  if trimmed = "" then (st, [])
  else
    match save_message st s trimmed with
    | none => (st, [])
    | some (m, st1) =>
        (st1, group_send st1.sessions s.conversationId
                (.chatMessageEvent (serialize_message m)))

/-- `ChatConsumer.handle_typing`: upsert or delete the typing row, then
broadcast the typing event to the conversation group. -/
def handle_typing (st : HubState) (s : Session) (isTyping : Bool) :
    HubState × List (Nat × OutFrame) :=
  let st1 := if isTyping then add_typing_indicator st s
             else remove_typing_indicator st s
  (st1, group_send st1.sessions s.conversationId
          (.typingEvent s.userId s.username isTyping))

/-- `ChatConsumer.mark_message_read`: `Message.objects.get(id=...)`;
on `DoesNotExist` silently pass; otherwise
`MessageReadStatus.objects.get_or_create(message, user)`.  No
conversation or membership filter appears in the query. -/
def mark_message_read (st : HubState) (userId : Nat) (messageId : Nat) :
    HubState :=
  match st.messages.find? (fun m => m.id == messageId) with
  | none => st
  | some _ =>
      if st.readStatuses.any (fun r => r.message == messageId && r.user == userId)
      then st
      else { st with readStatuses := st.readStatuses ++ [⟨messageId, userId⟩] }

/-- `ChatConsumer.handle_read_receipt`: `data.get('message_id')` is
truthy (present and nonzero) or nothing happens; no frame is ever sent
back on this path. -/
def handle_read_receipt (st : HubState) (s : Session) (messageId : Option Nat) :
    HubState × List (Nat × OutFrame) :=
  match messageId with
  | none => (st, [])
  | some mid => if mid == 0 then (st, []) else (mark_message_read st s.userId mid, [])

/-- `ChatConsumer.connect`: refuse unless authenticated, refuse unless a
participant; otherwise `group_add`, `accept`, set `is_online`, and
broadcast `user_status: online` to the group (which now contains the new
session).  The Bool is whether the connection was accepted. -/
def connect (st : HubState) (s : Session) :
    HubState × List (Nat × OutFrame) × Bool :=
  if !s.isAuthenticated then (st, [], false)
  else if !check_participant st s.conversationId s.userId then (st, [], false)
  else
    let st1 := { st with sessions := st.sessions ++ [s] }
    let st2 := update_online_status st1 s.userId true
    (st2,
     group_send st2.sessions s.conversationId
       (.userStatusEvent s.userId s.username "online"),
     true)

/-- `ChatConsumer.disconnect`: clear `is_online`, delete the typing row,
broadcast `user_status: offline` to the group (still containing this
session), then `group_discard`. -/
def disconnect (st : HubState) (s : Session) :
    HubState × List (Nat × OutFrame) :=
  let st1 := update_online_status st s.userId false
  let st2 := remove_typing_indicator st1 s
  let evs := group_send st2.sessions s.conversationId
               (.userStatusEvent s.userId s.username "offline")
  ({ st2 with sessions := st2.sessions.filter (fun t => t.sid != s.sid) }, evs)

/-- Python `timedelta.seconds` of a non-negative duration of
`totalSeconds` whole seconds: the seconds component of the normalized
(days, seconds, microseconds) triple, i.e. the total modulo one day. -/
def timedelta_seconds (totalSeconds : Nat) : Nat :=
  totalSeconds % 86400

/-- `TypingIndicator.is_active`:
`(timezone.now() - self.started_at).seconds < 5`, as a function of the
elapsed whole seconds since `started_at`. -/
def is_active (elapsedSeconds : Nat) : Bool :=
  timedelta_seconds elapsedSeconds < 5

/-- `ConversationParticipant.get_unread_count`: messages of the
participant's conversation not sent by the participant, restricted to
those after `last_read_at` when that is set. -/
def get_unread_count (st : HubState) (p : Participant) : Nat :=
  match p.lastReadAt with
  | some t =>
      (st.messages.filter (fun m =>
        m.conversation == p.conversation && decide (t < m.createdAt)
          && !(m.sender == p.user))).length
  | none =>
      (st.messages.filter (fun m =>
        m.conversation == p.conversation && !(m.sender == p.user))).length

/-- Number of `MessageReadStatus` rows for a (message, user) pair. -/
def readStatusCount (rs : List ReadStatus) (messageId userId : Nat) : Nat :=
  (rs.filter (fun r => r.message == messageId && r.user == userId)).length

/-- The result of `json.loads` on an inbound text frame. -/
inductive JsonValue where
  | jnull
  | jbool (b : Bool)
  | jnum (n : Int)
  | jstr (s : String)
  | jarr (xs : List JsonValue)
  | jobj (fields : List (String × JsonValue))

/-- An inbound frame after the `json.loads` call of
`ChatConsumer.receive`: either the decoder raised `JSONDecodeError` or
it produced a JSON value. -/
inductive InboundParse where
  | malformed
  | value (v : JsonValue)

/-- Python `dict.get(key)` on a decoded JSON object (`json.loads` keeps
the last of duplicate keys). -/
def objGet (fields : List (String × JsonValue)) (key : String) :
    Option JsonValue :=
  (fields.reverse.find? (fun p => p.1 == key)).map Prod.snd

/-- What `ChatConsumer.receive` does with a parsed frame: send an error
frame, dispatch to one of the three handlers, or — when the decoded
value is not an object, so that `data.get` raises `AttributeError`
outside the `except json.JSONDecodeError` clause — let the exception
escape the handler. -/
inductive ReceiveOutcome where
  | errorFrame (message : String)
  | dispatchChatMessage
  | dispatchTyping
  | dispatchReadReceipt
  | uncaughtException
deriving DecidableEq, Repr

/-- Python `v == "t"` where `v` is an optional JSON value: true exactly
for an equal string; a missing key (`None`) or a non-string value
compares unequal without error. -/
def jsonEqStr (v : Option JsonValue) (t : String) : Bool :=
  match v with
  | some (.jstr u) => u == t
  | _ => false

/-- `ChatConsumer.receive`: the `if message_type == ... elif ... else`
chain on `data.get('type')`.  Only `json.JSONDecodeError` is caught;
`data.get` on a non-dict raises `AttributeError`, which escapes. -/
def receive (p : InboundParse) : ReceiveOutcome :=
  match p with
  | .malformed => .errorFrame "Invalid JSON"
  | .value (.jobj fields) =>
      if jsonEqStr (objGet fields "type") "chat_message" then .dispatchChatMessage
      else if jsonEqStr (objGet fields "type") "typing" then .dispatchTyping
      else if jsonEqStr (objGet fields "type") "read_receipt" then .dispatchReadReceipt
      else .errorFrame "Unknown message type"
  | .value _ => .uncaughtException

/-- The `type` field of a decoded object selects one of the three known
handlers. -/
def typeFieldKnown (fields : List (String × JsonValue)) : Bool :=
  jsonEqStr (objGet fields "type") "chat_message"
    || jsonEqStr (objGet fields "type") "typing"
    || jsonEqStr (objGet fields "type") "read_receipt"

/-! Helper lemmas about the operations. -/

theorem update_online_status_sessions (st : HubState) (u : Nat) (b : Bool) :
    (update_online_status st u b).sessions = st.sessions := by
  unfold update_online_status
  split
  · split <;> rfl
  · rfl

theorem update_online_status_typing (st : HubState) (u : Nat) (b : Bool) :
    (update_online_status st u b).typing = st.typing := by
  unfold update_online_status
  split
  · split <;> rfl
  · rfl

theorem remove_typing_indicator_sessions (st : HubState) (s : Session) :
    (remove_typing_indicator st s).sessions = st.sessions := rfl

theorem remove_typing_indicator_onlineFlag (st : HubState) (s : Session) :
    (remove_typing_indicator st s).onlineFlag = st.onlineFlag := rfl

theorem mark_message_read_messages (st : HubState) (u mid : Nat) :
    (mark_message_read st u mid).messages = st.messages := by
  rcases h : st.messages.find? (fun m => m.id == mid) with _ | m
  · simp [mark_message_read, h]
  · simp only [mark_message_read, h]
    split <;> rfl

theorem mark_message_read_mem (st : HubState) (u : Nat) (m : Msg)
    (hm : m ∈ st.messages) :
    ∃ r ∈ (mark_message_read st u m.id).readStatuses,
      r.message = m.id ∧ r.user = u := by
  have hfind : (st.messages.find? (fun x => x.id == m.id)).isSome := by
    exact List.find?_isSome.mpr ⟨m, hm, by simp⟩
  rcases h : st.messages.find? (fun x => x.id == m.id) with _ | m'
  · rw [h] at hfind; simp at hfind
  · simp only [mark_message_read, h]
    by_cases hany : (st.readStatuses.any fun r => r.message == m.id && r.user == u) = true
    · rw [if_pos hany]
      rcases List.any_eq_true.mp hany with ⟨r, hr, hpr⟩
      simp only [Bool.and_eq_true, beq_iff_eq] at hpr
      exact ⟨r, hr, hpr.1, hpr.2⟩
    · rw [if_neg hany]
      exact ⟨⟨m.id, u⟩, by simp, rfl, rfl⟩

theorem mark_message_read_not_found (st : HubState) (u mid : Nat)
    (h : ∀ mm ∈ st.messages, mm.id ≠ mid) :
    mark_message_read st u mid = st := by
  unfold mark_message_read
  have hfind : st.messages.find? (fun m => m.id == mid) = none := by
    refine List.find?_eq_none.mpr ?_
    intro x hx
    simpa using h x hx
  rw [hfind]

theorem get_unread_count_congr (st st' : HubState) (p : Participant)
    (h : st'.messages = st.messages) :
    get_unread_count st' p = get_unread_count st p := by
  unfold get_unread_count
  rw [h]

/-! Concrete fixtures used by counterexamples and witnesses. -/

/-- A live session of user 1 ("alice") in conversation 1, channel 1. -/
def sessionA1 : Session :=
  { sid := 1, userId := 1, username := "alice", conversationId := 1,
    isAuthenticated := true }

/-- A second live session of the same user 1 in conversation 1. -/
def sessionA2 : Session :=
  { sid := 2, userId := 1, username := "alice", conversationId := 1,
    isAuthenticated := true }

/-- A live session of user 2 ("bob") in conversation 1, channel 3. -/
def sessionB : Session :=
  { sid := 3, userId := 2, username := "bob", conversationId := 1,
    isAuthenticated := true }

/-- Conversation 1 with participants 1 and 2; user 1 connected twice. -/
def stTwoSessions : HubState :=
  { conversations := [1],
    participants := [⟨1, 1, none⟩, ⟨1, 2, none⟩],
    messages := [], readStatuses := [], typing := [],
    onlineFlag := [1], sessions := [sessionA1, sessionA2],
    nextMessageId := 1, clock := 10 }

/-- An authenticated session of user 5 ("eve"), not a participant of
conversation 1. -/
def sessionEve : Session :=
  { sid := 9, userId := 5, username := "eve", conversationId := 1,
    isAuthenticated := true }

/-- Conversation 1 has been deleted from the store while user 1 is still
joined over the live connection: the state in which `save_message`
fails. -/
def stNoConversation : HubState :=
  { conversations := [], participants := [⟨1, 1, none⟩],
    messages := [], readStatuses := [], typing := [],
    onlineFlag := [1], sessions := [sessionA1],
    nextMessageId := 1, clock := 0 }

/-! Claim theorems. -/

/-- C4 (code is wrong at its own documented behavior): the code computes
typing activity with `timedelta.seconds`, the seconds component modulo
one day, so one day plus two seconds after the last signal (86402
elapsed seconds, far beyond the documented 5-second window) the
indicator is still reported active. -/
theorem is_active_true_one_day_after_signal :
    is_active 86402 = true ∧ 5 ≤ 86402 ∧ timedelta_seconds 86402 = 2 := by
  decide

/-- C7: a chat_message frame whose content is empty after trimming
leaves the state unchanged (no persisted Message), broadcasts nothing,
and sends no error event: a silent drop. -/
theorem empty_content_silent_drop (st : HubState) (s : Session)
    (content : String) (h : pyStrip content = "") :
    handle_chat_message st s content = (st, []) := by
  unfold handle_chat_message
  simp [h]

/-- Witness for C7 at an all-whitespace body. -/
theorem empty_content_silent_drop_witness :
    pyStrip "   " = ""
  ∧ handle_chat_message stTwoSessions sessionA1 "   " = (stTwoSessions, []) :=
  ⟨by decide, empty_content_silent_drop stTwoSessions sessionA1 "   " (by decide)⟩

/-- C8: an authenticated user who is not a participant of the
conversation is refused: the connection is not accepted, no group
membership is registered, and no presence, typing, or broadcast side
effect occurs (the state is returned unchanged with an empty delivery
list). -/
theorem connect_refused_non_participant (st : HubState) (s : Session)
    (hauth : s.isAuthenticated = true)
    (hpart : check_participant st s.conversationId s.userId = false) :
    connect st s = (st, [], false) := by
  unfold connect
  simp [hauth, hpart]

/-- Witness for C8: eve is authenticated but not a participant of
conversation 1. -/
theorem connect_refused_non_participant_witness :
    sessionEve.isAuthenticated = true
  ∧ check_participant stTwoSessions sessionEve.conversationId sessionEve.userId = false
  ∧ connect stTwoSessions sessionEve = (stTwoSessions, [], false) :=
  ⟨by decide, by decide,
    connect_refused_non_participant stTwoSessions sessionEve (by decide) (by decide)⟩

/-- C2 counterexample: when persistence fails (the conversation row is
gone), the handler returns with an empty delivery list — no error event
reaches the originating session, contrary to the claim. -/
theorem persistence_failure_no_error_event :
    save_message stNoConversation sessionA1 "hi" = none
  ∧ handle_chat_message stNoConversation sessionA1 "hi" = (stNoConversation, []) := by
  constructor
  · decide
  · decide

/-- C2 amended: on persistence failure nothing at all is sent — no
broadcast to any session and also no error event to the sender; the
failure is swallowed silently and the state is unchanged. -/
theorem chat_persistence_failure_silent (st : HubState) (s : Session)
    (content : String)
    (h : st.conversations.contains s.conversationId = false) :
    handle_chat_message st s content = (st, []) := by
  unfold handle_chat_message save_message
  rw [h]
  simp

/-- Witness for the amended C2. -/
theorem chat_persistence_failure_silent_witness :
    stNoConversation.conversations.contains sessionA1.conversationId = false
  ∧ handle_chat_message stNoConversation sessionA1 "hi" = (stNoConversation, []) :=
  ⟨by decide, chat_persistence_failure_silent stNoConversation sessionA1 "hi" (by decide)⟩

theorem handleGroupEvent_typing (s : Session) (uid : Nat) (un : String)
    (t : Bool) :
    handleGroupEvent s (.typingEvent uid un t)
      = if uid == s.userId then none else some (.typing uid un t) := rfl

theorem handleGroupEvent_chat (s : Session) (m : SerializedMessage) :
    handleGroupEvent s (.chatMessageEvent m) = some (.chatMessage m) := rfl

theorem handleGroupEvent_status (s : Session) (uid : Nat) (un status : String) :
    handleGroupEvent s (.userStatusEvent uid un status)
      = some (.userStatus uid un status) := rfl

/-- C1 counterexample: user 1 has two live sessions in conversation 1;
disconnecting one of them (a 2→1 transition of the live-session count)
still produces `user_status: offline` broadcasts, delivered to every
member, contrary to the claim that no broadcast occurs except on 0→1
and 1→0. -/
theorem user_status_broadcast_on_two_to_one :
    liveSessionCount stTwoSessions 1 = 2
  ∧ (disconnect stTwoSessions sessionA2).2 =
      [(1, .userStatus 1 "alice" "offline"), (2, .userStatus 1 "alice" "offline")]
  ∧ liveSessionCount (disconnect stTwoSessions sessionA2).1 1 = 1 := by
  refine ⟨by decide, by decide, by decide⟩

/-- C1 amended: presence is a single boolean `is_online` column, not a
session counter.  Every disconnect broadcasts `user_status: offline` and
clears the flag, and every accepted connect broadcasts
`user_status: online` and sets the flag, unconditionally — regardless of
how many other live sessions the user retains. -/
theorem presence_updates_unconditional (st : HubState) (s : Session)
    (hmem : s ∈ st.sessions) (hauth : s.isAuthenticated = true)
    (hpart : check_participant st s.conversationId s.userId = true) :
    ((s.sid, OutFrame.userStatus s.userId s.username "offline")
        ∈ (disconnect st s).2
      ∧ s.userId ∉ (disconnect st s).1.onlineFlag)
  ∧ ((s.sid, OutFrame.userStatus s.userId s.username "online")
        ∈ (connect st s).2.1
      ∧ s.userId ∈ (connect st s).1.onlineFlag) := by
  refine ⟨⟨?_, ?_⟩, ?_⟩
  · unfold disconnect
    dsimp only
    rw [remove_typing_indicator_sessions, update_online_status_sessions]
    refine List.mem_filterMap.mpr ⟨s, hmem, ?_⟩
    simp [handleGroupEvent_status]
  · unfold disconnect
    dsimp only
    rw [remove_typing_indicator_onlineFlag]
    unfold update_online_status
    simp [List.mem_filter]
  · unfold connect
    rw [hauth, hpart]
    dsimp only
    constructor
    · rw [update_online_status_sessions]
      refine List.mem_filterMap.mpr
        ⟨s, List.mem_append_right _ (List.mem_cons_self s []), ?_⟩
      simp [handleGroupEvent_status]
    · unfold update_online_status
      dsimp only
      by_cases hcont : (st.onlineFlag.contains s.userId) = true
      · rw [if_pos hcont]
        obtain ⟨a, ha, hba⟩ := List.contains_iff_exists_mem_beq.mp hcont
        rw [beq_iff_eq] at hba
        rw [hba]
        exact ha
      · rw [if_neg hcont]
        exact List.mem_cons_self _ _

/-- Witness for the amended C1 at the two-session state. -/
theorem presence_updates_unconditional_witness :
    sessionA2 ∈ stTwoSessions.sessions
  ∧ (((sessionA2.sid,
        OutFrame.userStatus sessionA2.userId sessionA2.username "offline")
          ∈ (disconnect stTwoSessions sessionA2).2
      ∧ sessionA2.userId ∉ (disconnect stTwoSessions sessionA2).1.onlineFlag)
    ∧ ((sessionA2.sid,
        OutFrame.userStatus sessionA2.userId sessionA2.username "online")
          ∈ (connect stTwoSessions sessionA2).2.1
      ∧ sessionA2.userId ∈ (connect stTwoSessions sessionA2).1.onlineFlag)) :=
  ⟨by decide,
    presence_updates_unconditional stTwoSessions sessionA2
      (by decide) (by decide) (by decide)⟩

/-- C3 counterexample: sessions 1 and 2 are distinct sessions joined to
conversation 1, both owned by user 1.  A typing frame from session 1 is
delivered to nobody — in particular not to session 2 — because the
exclusion compares user ids, not session identity. -/
theorem typing_not_delivered_to_same_user_session :
    sessionA1 ∈ stTwoSessions.sessions
  ∧ sessionA2 ∈ stTwoSessions.sessions
  ∧ sessionA1 ≠ sessionA2
  ∧ (handle_typing stTwoSessions sessionA1 true).2 = [] := by decide

/-- C3 amended: a typing broadcast is delivered exactly to the joined
sessions whose user differs from the originator's user — so never back
to the originating session, but also not to any other session of the
same user — while a chat_message broadcast is delivered to every joined
session of the conversation, including the originator. -/
theorem broadcast_exclusion_by_user (sessions : List Session) (c : Nat)
    (orig b : Session) (t : Bool) (m : SerializedMessage)
    (hb : b ∈ sessions) (hc : b.conversationId = c) :
    (b.userId ≠ orig.userId →
      (b.sid, OutFrame.typing orig.userId orig.username t)
        ∈ group_send sessions c (.typingEvent orig.userId orig.username t))
  ∧ (∀ q ∈ group_send sessions c (.typingEvent orig.userId orig.username t),
      ∃ s ∈ sessions, s.sid = q.1 ∧ s.conversationId = c
        ∧ s.userId ≠ orig.userId
        ∧ q.2 = OutFrame.typing orig.userId orig.username t)
  ∧ (b.sid, OutFrame.chatMessage m)
      ∈ group_send sessions c (.chatMessageEvent m) := by
  refine ⟨?_, ?_, ?_⟩
  · intro hne
    refine List.mem_filterMap.mpr ⟨b, hb, ?_⟩
    have : (orig.userId == b.userId) = false := by
      simp [Ne.symm hne]
    simp [group_send, hc, handleGroupEvent_typing, this]
  · intro q hq
    rcases List.mem_filterMap.mp hq with ⟨s, hs, hmap⟩
    by_cases hsc : (s.conversationId == c) = true
    · rw [if_pos hsc] at hmap
      rw [handleGroupEvent_typing] at hmap
      by_cases hu : (orig.userId == s.userId) = true
      · rw [if_pos hu] at hmap
        simp at hmap
      · rw [if_neg hu] at hmap
        simp only [Option.map_some'] at hmap
        have hq2 : (s.sid, OutFrame.typing orig.userId orig.username t) = q :=
          Option.some.inj hmap
        refine ⟨s, hs, ?_, beq_iff_eq.mp hsc, ?_, ?_⟩
        · rw [← hq2]
        · intro heq
          exact hu (beq_iff_eq.mpr (heq ▸ rfl))
        · rw [← hq2]
    · rw [if_neg hsc] at hmap
      simp at hmap
  · refine List.mem_filterMap.mpr ⟨b, hb, ?_⟩
    simp [handleGroupEvent_chat, hc]

/-- Witness for the amended C3: users 1 and 2 joined to conversation 1. -/
theorem broadcast_exclusion_by_user_witness :
    sessionB ∈ [sessionA1, sessionB]
  ∧ sessionB.conversationId = 1
  ∧ ((sessionB.userId ≠ sessionA1.userId →
      (sessionB.sid, OutFrame.typing sessionA1.userId sessionA1.username true)
        ∈ group_send [sessionA1, sessionB] 1
            (.typingEvent sessionA1.userId sessionA1.username true))
    ∧ (∀ q ∈ group_send [sessionA1, sessionB] 1
            (.typingEvent sessionA1.userId sessionA1.username true),
        ∃ s ∈ [sessionA1, sessionB], s.sid = q.1 ∧ s.conversationId = 1
          ∧ s.userId ≠ sessionA1.userId
          ∧ q.2 = OutFrame.typing sessionA1.userId sessionA1.username true)
    ∧ (sessionB.sid, OutFrame.chatMessage ⟨1, 1, 1, "hi", false⟩)
        ∈ group_send [sessionA1, sessionB] 1
            (.chatMessageEvent ⟨1, 1, 1, "hi", false⟩)) :=
  ⟨by decide, by decide,
    broadcast_exclusion_by_user [sessionA1, sessionB] 1 sessionA1 sessionB
      true ⟨1, 1, 1, "hi", false⟩ (by decide) (by decide)⟩

/-! Fixtures and helpers for the read-receipt claims. -/

/-- A message from user 1 in conversation 1, not yet read by user 2. -/
def msgFromAlice : Msg :=
  { id := 1, conversation := 1, sender := 1, content := "hi", createdAt := 5 }

/-- Conversation 1 with participants 1 and 2, one unread message from
user 1; user 2 is connected. -/
def stUnread : HubState :=
  { conversations := [1], participants := [⟨1, 1, none⟩, ⟨1, 2, none⟩],
    messages := [msgFromAlice], readStatuses := [], typing := [],
    onlineFlag := [], sessions := [sessionB], nextMessageId := 2,
    clock := 10 }

/-- A message in conversation 2, which user 1 is not a participant of. -/
def msgOther : Msg :=
  { id := 7, conversation := 2, sender := 4, content := "yo", createdAt := 3 }

/-- User 1's session is joined to conversation 1 while a message exists
in the unrelated conversation 2. -/
def stCross : HubState :=
  { conversations := [1, 2],
    participants := [⟨1, 1, none⟩, ⟨1, 2, none⟩, ⟨2, 4, none⟩],
    messages := [msgOther], readStatuses := [], typing := [],
    onlineFlag := [], sessions := [sessionA1], nextMessageId := 8,
    clock := 9 }

theorem handle_read_receipt_some (st : HubState) (s : Session) (mid : Nat)
    (h : (mid == 0) = false) :
    handle_read_receipt st s (some mid)
      = (mark_message_read st s.userId mid, []) := by
  simp [handle_read_receipt, h]

theorem handle_read_receipt_missing (st : HubState) (s : Session) (n : Nat)
    (h : ∀ mm ∈ st.messages, mm.id ≠ n) :
    handle_read_receipt st s (some n) = (st, []) := by
  by_cases h0 : (n == 0) = true
  · simp [handle_read_receipt, h0]
  · have h0' : (n == 0) = false := by
      rwa [Bool.not_eq_true] at h0
    rw [handle_read_receipt_some st s n h0',
        mark_message_read_not_found st s.userId n h]

/-- C5 counterexample: user 2's unread count in conversation 1 is 1; a
read_receipt frame from user 2 for message 1 creates the ReadStatus but
leaves `last_read_at` unset, so the unread count — computed only from
`last_read_at` — is still 1, not 0. -/
theorem read_receipt_unread_count_not_zero :
    get_unread_count stUnread ⟨1, 2, none⟩ = 1
  ∧ (handle_read_receipt stUnread sessionB (some 1)).1.readStatuses = [⟨1, 2⟩]
  ∧ (handle_read_receipt stUnread sessionB (some 1)).1.participants
      = [⟨1, 1, none⟩, ⟨1, 2, none⟩]
  ∧ get_unread_count (handle_read_receipt stUnread sessionB (some 1)).1
      ⟨1, 2, none⟩ = 1 := by
  decide

/-- C5 amended: a live read_receipt creates the ReadStatus row for the
message but never touches the participant's `last_read_at`, and the
unread count — a function of `last_read_at` and the message table only —
is unchanged by it (so it does not become 0 when it was not already 0). -/
theorem read_receipt_preserves_unread_count (st : HubState) (s : Session)
    (m : Msg) (p : Participant) (hm : m ∈ st.messages) (h0 : m.id ≠ 0) :
    (∃ r ∈ (handle_read_receipt st s (some m.id)).1.readStatuses,
        r.message = m.id ∧ r.user = s.userId)
  ∧ get_unread_count (handle_read_receipt st s (some m.id)).1 p
      = get_unread_count st p := by
  have hmid : (m.id == 0) = false := by simp [h0]
  rw [handle_read_receipt_some st s m.id hmid]
  constructor
  · exact mark_message_read_mem st s.userId m hm
  · exact get_unread_count_congr st (mark_message_read st s.userId m.id) p
      (mark_message_read_messages st s.userId m.id)

/-- Witness for the amended C5 at the one-unread-message state. -/
theorem read_receipt_preserves_unread_count_witness :
    msgFromAlice ∈ stUnread.messages
  ∧ msgFromAlice.id ≠ 0
  ∧ ((∃ r ∈ (handle_read_receipt stUnread sessionB (some msgFromAlice.id)).1.readStatuses,
        r.message = msgFromAlice.id ∧ r.user = sessionB.userId)
    ∧ get_unread_count
        (handle_read_receipt stUnread sessionB (some msgFromAlice.id)).1
        ⟨1, 2, none⟩
      = get_unread_count stUnread ⟨1, 2, none⟩) :=
  ⟨by decide, by decide,
    read_receipt_preserves_unread_count stUnread sessionB msgFromAlice
      ⟨1, 2, none⟩ (by decide) (by decide)⟩

/-- C6: `markRead` is idempotent — marking the same (message, user) pair
twice equals marking it once, and under the uniqueness constraint (at
most one existing row per pair) the result holds exactly one ReadStatus
row for the pair; the second call is a no-op, not an error. -/
theorem mark_read_idempotent (st : HubState) (u mid : Nat)
    (hmsg : ∃ m ∈ st.messages, m.id = mid)
    (hone : readStatusCount st.readStatuses mid u ≤ 1) :
    mark_message_read (mark_message_read st u mid) u mid
      = mark_message_read st u mid
  ∧ readStatusCount (mark_message_read st u mid).readStatuses mid u = 1 := by
  obtain ⟨m, hm, hid⟩ := hmsg
  have hfind : (st.messages.find? (fun x => x.id == mid)).isSome :=
    List.find?_isSome.mpr ⟨m, hm, by simp [hid]⟩
  rcases h : st.messages.find? (fun x => x.id == mid) with _ | m'
  · rw [h] at hfind; simp at hfind
  · by_cases hany : (st.readStatuses.any fun r => r.message == mid && r.user == u) = true
    · have hmark : mark_message_read st u mid = st := by
        simp only [mark_message_read, h]
        rw [if_pos hany]
      rw [hmark, hmark]
      refine ⟨rfl, ?_⟩
      obtain ⟨r, hr, hpr⟩ := List.any_eq_true.mp hany
      have hmemf : r ∈ st.readStatuses.filter
          (fun x => x.message == mid && x.user == u) :=
        List.mem_filter.mpr ⟨hr, hpr⟩
      have hpos : 0 < readStatusCount st.readStatuses mid u :=
        List.length_pos_of_mem hmemf
      omega
    · have hany' : (st.readStatuses.any fun r => r.message == mid && r.user == u) = false := by
        rwa [Bool.not_eq_true] at hany
      have hmark : mark_message_read st u mid
          = { st with readStatuses := st.readStatuses ++ [⟨mid, u⟩] } := by
        simp only [mark_message_read, h]
        rw [if_neg hany]
      have hnil : st.readStatuses.filter
          (fun x => x.message == mid && x.user == u) = [] := by
        rw [List.filter_eq_nil_iff]
        intro a ha
        have := List.any_eq_false.mp hany' a ha
        simpa using this
      constructor
      · rw [hmark]
        have hfind2 : ({ st with readStatuses := st.readStatuses ++ [⟨mid, u⟩] }
              : HubState).messages.find? (fun x => x.id == mid) = some m' := h
        have hany2 : (({ st with readStatuses := st.readStatuses ++ [⟨mid, u⟩] }
              : HubState).readStatuses.any
                (fun r => r.message == mid && r.user == u)) = true := by
          simp
        simp only [mark_message_read, hfind2]
        rw [if_pos hany2]
      · rw [hmark]
        simp [readStatusCount, List.filter_append, hnil]

/-- Witness for C6 at the one-unread-message state. -/
theorem mark_read_idempotent_witness :
    (∃ m ∈ stUnread.messages, m.id = 1)
  ∧ readStatusCount stUnread.readStatuses 1 2 ≤ 1
  ∧ (mark_message_read (mark_message_read stUnread 2 1) 2 1
      = mark_message_read stUnread 2 1
    ∧ readStatusCount (mark_message_read stUnread 2 1).readStatuses 1 2 = 1) :=
  ⟨by decide, by decide, mark_read_idempotent stUnread 2 1 (by decide) (by decide)⟩

/-- Observation of `ChatConsumer.receive`: does the outcome write an
error frame back to the session? -/
def emitsErrorFrame : ReceiveOutcome → Bool
  | .errorFrame _ => true
  | _ => false

/-- C9 counterexample: a frame that is valid JSON but not an object
(here the array `[]`) has no `type` among the three known ones, yet the
consumer raises an uncaught `AttributeError` on `data.get` instead of
sending an error frame. -/
theorem valid_json_array_frame_uncaught :
    receive (.value (.jarr [])) = .uncaughtException
  ∧ emitsErrorFrame (receive (.value (.jarr []))) = false :=
  ⟨rfl, rfl⟩

/-- C9 amended: malformed JSON yields the "Invalid JSON" error frame and
a decoded JSON object whose `type` is none of the three known values
yields the "Unknown message type" error frame, the connection staying
open in both cases; but a valid-JSON non-object frame instead raises an
uncaught exception and no error frame is sent. -/
theorem receive_protocol_error_frames (fields : List (String × JsonValue))
    (h : typeFieldKnown fields = false) :
    receive .malformed = .errorFrame "Invalid JSON"
  ∧ receive (.value (.jobj fields)) = .errorFrame "Unknown message type" := by
  refine ⟨rfl, ?_⟩
  unfold typeFieldKnown at h
  unfold receive
  dsimp only
  cases hA : jsonEqStr (objGet fields "type") "chat_message" with
  | true => rw [hA] at h; simp at h
  | false =>
    cases hB : jsonEqStr (objGet fields "type") "typing" with
    | true => rw [hA, hB] at h; simp at h
    | false =>
      cases hC : jsonEqStr (objGet fields "type") "read_receipt" with
      | true => rw [hA, hB, hC] at h; simp at h
      | false => simp

/-- Witness for the amended C9 with a non-string `type` field. -/
theorem receive_protocol_error_frames_witness :
    typeFieldKnown [("type", JsonValue.jnum 5)] = false
  ∧ (receive .malformed = .errorFrame "Invalid JSON"
    ∧ receive (.value (.jobj [("type", JsonValue.jnum 5)]))
        = .errorFrame "Unknown message type") :=
  ⟨by decide, receive_protocol_error_frames [("type", JsonValue.jnum 5)] (by decide)⟩

/-- C10: a read_receipt for an existing message is honored with no
scoping check — the ReadStatus is created even when the message belongs
to a conversation other than the session's and its user is not a
participant of that conversation — and a read_receipt whose message_id
matches no message leaves the state unchanged and sends nothing (no
error frame). -/
theorem read_receipt_unscoped_and_silent (st : HubState) (s : Session)
    (m : Msg) (n : Nat) (hm : m ∈ st.messages) (h0 : m.id ≠ 0)
    (_hcross : m.conversation ≠ s.conversationId)
    (_hnp : check_participant st m.conversation s.userId = false)
    (hn : ∀ mm ∈ st.messages, mm.id ≠ n) :
    (∃ r ∈ (handle_read_receipt st s (some m.id)).1.readStatuses,
        r.message = m.id ∧ r.user = s.userId)
  ∧ (handle_read_receipt st s (some m.id)).2 = []
  ∧ handle_read_receipt st s (some n) = (st, []) := by
  have hmid : (m.id == 0) = false := by simp [h0]
  rw [handle_read_receipt_some st s m.id hmid]
  exact ⟨mark_message_read_mem st s.userId m hm, rfl,
    handle_read_receipt_missing st s n hn⟩

/-- Witness for C10: user 1's session is joined to conversation 1, the
message lives in conversation 2, and id 99 matches no message. -/
theorem read_receipt_unscoped_and_silent_witness :
    msgOther ∈ stCross.messages
  ∧ msgOther.id ≠ 0
  ∧ msgOther.conversation ≠ sessionA1.conversationId
  ∧ check_participant stCross msgOther.conversation sessionA1.userId = false
  ∧ (∀ mm ∈ stCross.messages, mm.id ≠ 99)
  ∧ ((∃ r ∈ (handle_read_receipt stCross sessionA1 (some msgOther.id)).1.readStatuses,
        r.message = msgOther.id ∧ r.user = sessionA1.userId)
    ∧ (handle_read_receipt stCross sessionA1 (some msgOther.id)).2 = []
    ∧ handle_read_receipt stCross sessionA1 (some 99) = (stCross, [])) :=
  ⟨by decide, by decide, by decide, by decide, by decide,
    read_receipt_unscoped_and_silent stCross sessionA1 msgOther 99
      (by decide) (by decide) (by decide) (by decide) (by decide)⟩

end ChatServer
